import Mathlib

/-!
Verification of the emotion-analysis core of `app.py` (voice-emotion-app).

The core of the program is four functions plus the analysis section of the
`upload` route handler:

* `detect_emotion(text)` — computes a TextBlob sentiment polarity and maps it
  through two thresholds to one of three label strings.
* `recognize_speech(path)` — calls the Google recognizer and, on any failure,
  returns the placeholder string "Could not recognize speech".
* `split_timeline(text)` — splits the transcript into windows of 5 words and
  classifies each window, attaching synthetic offsets advancing by 3.
* the `upload` handler — classifies the whole transcript, builds the timeline,
  and tallies a histogram keyed on `t["emotion"].split()[0]`.

External collaborators are abstracted: the TextBlob sentiment model becomes a
parameter `tb : Scorer` giving each string a polarity and a subjectivity
(rational numbers, standing for the floats in [-1,1] and [0,1]), and the Google
speech recognizer becomes an `Option String` (`none` = recognition failed,
which the `except` branch of `recognize_speech` turns into the placeholder).
Python `str.split()` (whitespace split dropping empty pieces) is embedded as
`pyWords`, and `sep.join(list)` as `pyJoin sep list`.
-/

/-- Sentiment scores of a text, as produced by `TextBlob(text).sentiment`:
a polarity in [-1, 1] and a subjectivity in [0, 1], modelled as rationals. -/
structure Sentiment where
  polarity : Rat
  subjectivity : Rat
  deriving Repr, DecidableEq

/-- The external sentiment model (TextBlob): a function from texts to scores. -/
abbrev Scorer := String → Sentiment

/-- Accumulator-based worker for `pyWords`: walks the character list, collecting
the current word in reverse in `acc`, emitting it when whitespace is met. -/
def wordsAux : List Char → List Char → List String
  | [], acc => if acc.isEmpty then [] else [String.mk acc.reverse]
  | c :: cs, acc =>
    if c.isWhitespace then
      (if acc.isEmpty then wordsAux cs [] else String.mk acc.reverse :: wordsAux cs [])
    else
      wordsAux cs (c :: acc)

/-- Python `text.split()` with no separator argument: split on runs of
whitespace, discarding empty pieces (so `"".split() == []`). -/
def pyWords (s : String) : List String := wordsAux s.data []

/-- Python `sep.join(parts)`: the empty string for an empty list, otherwise the
first part followed by `sep ++ part` for each further part. -/
def pyJoin (sep : String) : List String → String
  | [] => ""
  | x :: xs => xs.foldl (fun r a => r ++ sep ++ a) x

/-- Embedding of `detect_emotion` from `app.py` (lines 215-227):

```python
def detect_emotion(text):
    blob = TextBlob(text)
    polarity = blob.sentiment.polarity
    if polarity > 0.2:
        return "Happy 😊"
    elif polarity < -0.2:
        return "Sad 😢"
    else:
        return "Neutral 🙂"
```

The TextBlob model is the parameter `tb`. -/
def detect_emotion (tb : Scorer) (text : String) : String :=
  let polarity := (tb text).polarity
  if polarity > 0.2 then
    "Happy 😊"
  else if polarity < -0.2 then
    "Sad 😢"
  else
    "Neutral 🙂"

/-- Embedding of `recognize_speech` from `app.py` (lines 230-241): the call to the external
Google recognizer is abstracted as its outcome `googleResult : Option String`
(`some transcript` on success); the `except` branch returns the placeholder. -/
def recognize_speech (googleResult : Option String) : String :=
  match googleResult with
  | some transcript => transcript
  | none => "Could not recognize speech"

/-- One timeline entry, the dictionary appended by `split_timeline`:
`{"start": start, "end": start + step, "text": part, "emotion": emo}`. -/
structure Span where
  start : Nat
  «end» : Nat
  text : String
  emotion : String
  deriving Repr, DecidableEq

/-- The loop of `split_timeline` (lines 252-264): at each iteration take the
next 5 words, join them, classify, emit a span at offsets
(`start`, `start + 3`), and continue with the remaining words and
`start + 3`. -/
def splitTimelineGo (tb : Scorer) (start : Nat) (words : List String) : List Span :=
  if h : words = [] then
    []
  else
    let part := pyJoin " " (words.take 5)
    let emo := detect_emotion tb part
    { start := start, «end» := start + 3, text := part, emotion := emo } ::
      splitTimelineGo tb (start + 3) (words.drop 5)
  termination_by words.length
  decreasing_by
    cases words with
    | nil => exact absurd rfl h
    | cons w ws => simp [List.length_drop]; omega

/-- Embedding of `split_timeline` from `app.py` (lines 244-266): split the text into words,
then run the windowing loop starting at offset 0. -/
def split_timeline (tb : Scorer) (text : String) : List Span :=
  splitTimelineGo tb 0 (pyWords text)

/-- Python `label.split()[0]`: the first whitespace-separated token of a label
(the label with its trailing emoji stripped; total via a default for the empty
case, which no label produced by the program hits). -/
def firstToken (s : String) : String := (pyWords s).headD ""

/-- One step of the histogram loop:
`emotion_count[emo] = emotion_count.get(emo, 0) + 1` on a Python dict,
modelled as an insertion-ordered association list — bump the entry if the key
is present, otherwise append a fresh entry at the end. -/
def bumpCount (m : List (String × Nat)) (k : String) : List (String × Nat) :=
  match m with
  | [] => [(k, 1)]
  | p :: rest => if p.1 = k then (p.1, p.2 + 1) :: rest else p :: bumpCount rest k

/-- The histogram loop of the `upload` handler (lines 306-310): for each
timeline entry `t`, key on `t["emotion"].split()[0]` and bump its count. -/
def emotion_count (timeline : List Span) : List (String × Nat) :=
  timeline.foldl (fun m t => bumpCount m (firstToken t.emotion)) []

/-- The analysis result assembled by the `upload` handler (lines 300-339):
the transcript, the whole-text emotion, the timeline, and the chart data
(`chart_labels = list(emotion_count.keys())`,
`chart_data = list(emotion_count.values())`). -/
structure ReportResult where
  text : String
  emotion : String
  timeline : List Span
  chart_labels : List String
  chart_data : List Nat
  deriving Repr, DecidableEq

/-- The analysis section of the `upload` handler (`app.py` lines 300-313),
starting from the transcript returned by `recognize_speech`. -/
def upload (tb : Scorer) (text : String) : ReportResult :=
  let emotion := detect_emotion tb text
  let timeline := split_timeline tb text
  let counts := emotion_count timeline
  { text := text
    emotion := emotion
    timeline := timeline
    chart_labels := counts.map Prod.fst
    chart_data := counts.map Prod.snd }

/-- A sentiment model assigning every text polarity and subjectivity 0
(what TextBlob gives for the empty string and other neutral text). -/
def zeroScorer : Scorer := fun _ => { polarity := 0, subjectivity := 0 }

/-- A sentiment model assigning every text polarity 1 (strongly positive). -/
def happyScorer : Scorer := fun _ => { polarity := 1, subjectivity := 0 }

/-- A sentiment model assigning every text polarity -1 (strongly negative). -/
def sadScorer : Scorer := fun _ => { polarity := -1, subjectivity := 0 }

/-- A sentiment model assigning every text polarity 1/2 (the spec's VeryHappy
threshold) and subjectivity 1. -/
def halfScorer : Scorer := fun _ => { polarity := 1/2, subjectivity := 1 }

/-- A sentiment model assigning every text polarity exactly 1/5 = 0.2 (the
spec's lower Happy boundary, inclusive there, strict in the code). -/
def fifthScorer : Scorer := fun _ => { polarity := 1/5, subjectivity := 0 }

/-- A sentiment model that scores the whole transcript "a b c d e f"
positively (polarity 3/10) and every other text, in particular each of its
two 5-word windows, negatively (polarity -3/10). -/
def mixedScorer : Scorer := fun s =>
  if s = "a b c d e f" then { polarity := 3/10, subjectivity := 0 }
  else { polarity := -3/10, subjectivity := 0 }

/-! ### Unfolding equations for the segmentation loop -/

/-- The segmentation loop emits nothing once the word list is exhausted. -/
@[simp] theorem splitTimelineGo_nil (tb : Scorer) (start : Nat) :
    splitTimelineGo tb start [] = [] := by
  rw [splitTimelineGo]
  simp

/-- On a non-empty word list the segmentation loop emits one span for the
first window of 5 words and recurses on the rest with the offset advanced
by 3. -/
theorem splitTimelineGo_cons (tb : Scorer) (start : Nat) (w : String)
    (ws : List String) :
    splitTimelineGo tb start (w :: ws) =
      { start := start, «end» := start + 3,
        text := pyJoin " " ((w :: ws).take 5),
        emotion := detect_emotion tb (pyJoin " " ((w :: ws).take 5)) } ::
        splitTimelineGo tb (start + 3) ((w :: ws).drop 5) := by
  rw [splitTimelineGo]
  simp

/-- Fuel-indexed form of the span-count law for the segmentation loop:
the loop over `ws` emits `⌈ws.length / 5⌉ = (ws.length + 4) / 5` spans. -/
theorem splitTimelineGo_length (tb : Scorer) :
    ∀ (n : Nat) (ws : List String) (start : Nat), ws.length ≤ n →
      (splitTimelineGo tb start ws).length = (ws.length + 4) / 5 := by
  intro n
  induction n with
  | zero =>
    intro ws start hle
    have hnil : ws = [] := List.eq_nil_of_length_eq_zero (Nat.le_zero.mp hle)
    subst hnil
    simp
  | succ n ih =>
    intro ws start hle
    cases ws with
    | nil => simp
    | cons w rest =>
      rw [splitTimelineGo_cons]
      have hrest : ((w :: rest).drop 5).length ≤ n := by
        simp only [List.length_drop, List.length_cons] at *
        omega
      rw [List.length_cons, ih _ _ hrest]
      simp only [List.length_drop, List.length_cons]
      omega

/-- Fuel-indexed element characterization of the segmentation loop: the `i`-th
emitted span starts at `start + 3 * i`, ends 3 later, and carries the join of
words `[5i, 5i + 5)` of the remaining word list. -/
theorem splitTimelineGo_getElem (tb : Scorer) :
    ∀ (n : Nat) (ws : List String) (start i : Nat), ws.length ≤ n →
      i < (splitTimelineGo tb start ws).length →
      (splitTimelineGo tb start ws)[i]? =
        some { start := start + 3 * i, «end» := start + 3 * i + 3,
               text := pyJoin " " ((ws.drop (5 * i)).take 5),
               emotion := detect_emotion tb (pyJoin " " ((ws.drop (5 * i)).take 5)) } := by
  intro n
  induction n with
  | zero =>
    intro ws start i hle hi
    have hnil : ws = [] := List.eq_nil_of_length_eq_zero (Nat.le_zero.mp hle)
    subst hnil
    simp at hi
  | succ n ih =>
    intro ws start i hle hi
    cases ws with
    | nil => simp at hi
    | cons w rest =>
      rw [splitTimelineGo_cons] at hi ⊢
      cases i with
      | zero => simp
      | succ j =>
        have hrest : ((w :: rest).drop 5).length ≤ n := by
          simp only [List.length_drop, List.length_cons] at *
          omega
        have hj : j < (splitTimelineGo tb (start + 3) ((w :: rest).drop 5)).length := by
          simpa using Nat.lt_of_succ_lt_succ hi
        have := ih ((w :: rest).drop 5) (start + 3) j hrest hj
        rw [List.getElem?_cons_succ, this, List.drop_drop]
        have h1 : start + 3 + 3 * j = start + 3 * (j + 1) := by omega
        have h2 : 5 + 5 * j = 5 * (j + 1) := by omega
        rw [h1, h2]

/-! ### Joining lemmas -/

/-- Folding the join step from an accumulator with a fixed prefix keeps that
prefix on the outside. -/
theorem pyJoin_foldl_shift (sep : String) :
    ∀ (l : List String) (a b : String),
      l.foldl (fun r x => r ++ sep ++ x) (a ++ b) =
        a ++ l.foldl (fun r x => r ++ sep ++ x) b := by
  intro l
  induction l with
  | nil => intro a b; rfl
  | cons c l ih =>
    intro a b
    simp only [List.foldl_cons]
    rw [String.append_assoc, String.append_assoc, ih, String.append_assoc b sep c]

/-- Joining a concatenation of two non-empty lists inserts one separator
between the two joined halves. -/
theorem pyJoin_append (sep : String) (a b : List String)
    (ha : a ≠ []) (hb : b ≠ []) :
    pyJoin sep (a ++ b) = pyJoin sep a ++ sep ++ pyJoin sep b := by
  cases a with
  | nil => exact absurd rfl ha
  | cons x xs =>
    cases b with
    | nil => exact absurd rfl hb
    | cons y ys =>
      show (xs ++ y :: ys).foldl (fun r t => r ++ sep ++ t) x = _
      rw [List.foldl_append]
      simp only [List.foldl_cons]
      rw [pyJoin_foldl_shift sep ys (List.foldl (fun r t => r ++ sep ++ t) x xs ++ sep) y]
      rfl

/-- Joining a cons with a non-empty tail. -/
theorem pyJoin_cons_of_ne_nil (sep x : String) (l : List String) (h : l ≠ []) :
    pyJoin sep (x :: l) = x ++ sep ++ pyJoin sep l := by
  have := pyJoin_append sep [x] l (by simp) h
  simpa using this

/-- The segmentation loop never produces an empty span list from a non-empty
word list. -/
theorem splitTimelineGo_ne_nil (tb : Scorer) (start : Nat) (w : String)
    (ws : List String) : splitTimelineGo tb start (w :: ws) ≠ [] := by
  rw [splitTimelineGo_cons]
  simp

/-- Fuel-indexed word preservation: joining the texts of the spans emitted by
the segmentation loop reproduces the join of the word list itself. -/
theorem splitTimelineGo_join (tb : Scorer) :
    ∀ (n : Nat) (ws : List String) (start : Nat), ws.length ≤ n →
      pyJoin " " ((splitTimelineGo tb start ws).map Span.text) = pyJoin " " ws := by
  intro n
  induction n with
  | zero =>
    intro ws start hle
    have hnil : ws = [] := List.eq_nil_of_length_eq_zero (Nat.le_zero.mp hle)
    subst hnil
    simp
  | succ n ih =>
    intro ws start hle
    cases ws with
    | nil => simp
    | cons w rest =>
      rw [splitTimelineGo_cons, List.map_cons]
      by_cases hdrop : (w :: rest).drop 5 = []
      · have htake : (w :: rest).take 5 = w :: rest := by
          apply List.take_of_length_le
          rw [← List.drop_eq_nil_iff, hdrop]
        rw [hdrop, splitTimelineGo_nil, List.map_nil, htake]
        rfl
      · cases hgo : splitTimelineGo tb (start + 3) ((w :: rest).drop 5) with
        | nil =>
          cases hd : (w :: rest).drop 5 with
          | nil => exact absurd hd hdrop
          | cons d ds => rw [hd] at hgo; exact absurd hgo (splitTimelineGo_ne_nil tb (start + 3) d ds)
        | cons s ss =>
          rw [← hgo]
          have hmapne : (splitTimelineGo tb (start + 3) ((w :: rest).drop 5)).map Span.text ≠ [] := by
            rw [hgo]; simp
          rw [pyJoin_cons_of_ne_nil _ _ _ hmapne]
          have hrest : ((w :: rest).drop 5).length ≤ n := by
            simp only [List.length_drop, List.length_cons] at *
            omega
          rw [ih _ _ hrest]
          have htakene : (w :: rest).take 5 ≠ [] := by simp
          rw [← pyJoin_append " " _ _ htakene hdrop, List.take_append_drop]

/-! ### Histogram lemmas -/

/-- Bumping one key raises the total of the counts by exactly 1 (only the
first matching entry is bumped, or a fresh entry of count 1 is appended). -/
theorem bumpCount_sum (m : List (String × Nat)) (k : String) :
    ((bumpCount m k).map Prod.snd).sum = ((m.map Prod.snd).sum) + 1 := by
  induction m with
  | nil => simp [bumpCount]
  | cons p rest ih =>
    by_cases h : p.1 = k
    · simp [bumpCount, h]
      omega
    · simp [bumpCount, h, ih]
      omega

/-- The keys after a bump are the old keys together with the bumped key. -/
theorem bumpCount_keys_mem (m : List (String × Nat)) (k a : String) :
    a ∈ (bumpCount m k).map Prod.fst ↔ a ∈ m.map Prod.fst ∨ a = k := by
  induction m with
  | nil => simp [bumpCount]
  | cons p rest ih =>
    by_cases h : p.1 = k
    · subst h
      simp [bumpCount]
      tauto
    · simp [bumpCount, h, ih]
      tauto

/-- A bump keeps the keys of the histogram pairwise distinct. -/
theorem bumpCount_keys_nodup (m : List (String × Nat)) (k : String)
    (h : (m.map Prod.fst).Nodup) : ((bumpCount m k).map Prod.fst).Nodup := by
  induction m with
  | nil => simp [bumpCount]
  | cons p rest ih =>
    rw [List.map_cons, List.nodup_cons] at h
    by_cases hpk : p.1 = k
    · rw [bumpCount, if_pos hpk, List.map_cons, List.nodup_cons]
      exact h
    · rw [bumpCount, if_neg hpk, List.map_cons, List.nodup_cons]
      refine ⟨?_, ih h.2⟩
      rw [bumpCount_keys_mem]
      push_neg
      exact ⟨h.1, hpk⟩

/-- Running the histogram loop over a span list from any accumulator adds the
number of spans to the total of the counts. -/
theorem countLoop_sum (tl : List Span) :
    ∀ m : List (String × Nat),
      ((tl.foldl (fun m t => bumpCount m (firstToken t.emotion)) m).map Prod.snd).sum =
        (m.map Prod.snd).sum + tl.length := by
  induction tl with
  | nil => intro m; simp
  | cons t rest ih =>
    intro m
    rw [List.foldl_cons, ih, bumpCount_sum, List.length_cons]
    omega

/-- After the histogram loop, a key is present exactly when it was present in
the accumulator or is the first token of some span's emotion label. -/
theorem countLoop_keys_mem (tl : List Span) :
    ∀ (m : List (String × Nat)) (a : String),
      a ∈ ((tl.foldl (fun m t => bumpCount m (firstToken t.emotion)) m).map Prod.fst) ↔
        a ∈ m.map Prod.fst ∨ ∃ t ∈ tl, a = firstToken t.emotion := by
  induction tl with
  | nil => intro m a; simp
  | cons t rest ih =>
    intro m a
    rw [List.foldl_cons, ih, bumpCount_keys_mem]
    simp
    tauto

/-- The histogram loop keeps keys pairwise distinct. -/
theorem countLoop_keys_nodup (tl : List Span) :
    ∀ m : List (String × Nat), (m.map Prod.fst).Nodup →
      ((tl.foldl (fun m t => bumpCount m (firstToken t.emotion)) m).map Prod.fst).Nodup := by
  induction tl with
  | nil => intro m h; simpa using h
  | cons t rest ih =>
    intro m h
    rw [List.foldl_cons]
    exact ih _ (bumpCount_keys_nodup m _ h)

/-- Every label the classifier can return: the three emoji-bearing strings
hard-coded in `detect_emotion`. -/
theorem detect_emotion_cases (tb : Scorer) (text : String) :
    detect_emotion tb text = "Happy 😊" ∨ detect_emotion tb text = "Sad 😢" ∨
      detect_emotion tb text = "Neutral 🙂" := by
  rw [detect_emotion]
  by_cases h1 : (tb text).polarity > 0.2
  · left; simp [h1]
  · by_cases h2 : (tb text).polarity < -0.2
    · right; left; simp [h1, h2]
    · right; right; simp [h1, h2]

/-! ### Claim theorems -/

/-- C5: for every transcript, `split_timeline` produces exactly
`ceil(wordCount / 5) = (wordCount + 4) / 5` spans over the whitespace-split
words; span `i` carries words `[5i, 5i + 5)` joined with single spaces and
offsets `(3i, 3i + 3)`; the empty transcript yields an empty timeline. -/
theorem claim5_segmentation (tb : Scorer) (text : String) :
    (split_timeline tb text).length = ((pyWords text).length + 4) / 5 ∧
    (∀ i, i < (split_timeline tb text).length →
      (split_timeline tb text)[i]? =
        some { start := 3 * i, «end» := 3 * i + 3,
               text := pyJoin " " (((pyWords text).drop (5 * i)).take 5),
               emotion := detect_emotion tb (pyJoin " " (((pyWords text).drop (5 * i)).take 5)) }) ∧
    (text = "" → split_timeline tb text = []) := by
  refine ⟨?_, ?_, ?_⟩
  · exact splitTimelineGo_length tb (pyWords text).length (pyWords text) 0 le_rfl
  · intro i hi
    have h := splitTimelineGo_getElem tb (pyWords text).length (pyWords text) 0 i le_rfl hi
    simpa using h
  · intro h
    subst h
    have hw : pyWords "" = [] := rfl
    rw [split_timeline, hw, splitTimelineGo_nil]

/-- Witness for C5 on the 6-word transcript "a b c d e f": two spans, and the
second span is "f" at offsets (3, 6). -/
theorem claim5_segmentation_witness :
    (split_timeline zeroScorer "a b c d e f").length = 2 ∧
    (split_timeline zeroScorer "a b c d e f")[1]? =
      some { start := 3, «end» := 6, text := "f", emotion := "Neutral 🙂" } := by
  obtain ⟨h1, h2, h3⟩ := claim5_segmentation zeroScorer "a b c d e f"
  have hw : pyWords "a b c d e f" = ["a", "b", "c", "d", "e", "f"] := by decide
  have hlen : (split_timeline zeroScorer "a b c d e f").length = 2 := by
    rw [h1, hw]
    decide
  refine ⟨hlen, ?_⟩
  have h2' := h2 1 (by rw [hlen]; decide)
  rw [hw] at h2'
  have hpart : pyJoin " " ((["a", "b", "c", "d", "e", "f"].drop (5 * 1)).take 5) = "f" := by
    decide
  rw [hpart] at h2'
  have hemo : detect_emotion zeroScorer "f" = "Neutral 🙂" := by
    rw [detect_emotion]
    norm_num [zeroScorer]
  rw [hemo] at h2'
  rw [h2']

/-- C10: segmentation loses no words — joining the span texts of the timeline
with single spaces equals the transcript's words joined with single spaces. -/
theorem claim10_words_preserved (tb : Scorer) (text : String) :
    pyJoin " " ((split_timeline tb text).map Span.text) = pyJoin " " (pyWords text) :=
  splitTimelineGo_join tb (pyWords text).length (pyWords text) 0 le_rfl

/-- Witness-style instance for C10 at a concrete transcript with 7 words
(two windows): the joined span texts reproduce the normalized transcript. -/
theorem claim10_words_preserved_witness :
    pyJoin " " ((split_timeline zeroScorer "I am  so happy today great news").map Span.text) =
      "I am so happy today great news" := by
  have h := claim10_words_preserved zeroScorer "I am  so happy today great news"
  rw [h]
  decide

/-- C6 (amended): the histogram totals the timeline length and its keys are
exactly the distinct first tokens (`label.split()[0]`) of the span labels —
not the label strings stored on the spans (see the counterexample). -/
theorem claim6_histogram_invariants (tl : List Span) :
    ((emotion_count tl).map Prod.snd).sum = tl.length ∧
    ((emotion_count tl).map Prod.fst).Nodup ∧
    (∀ k, k ∈ (emotion_count tl).map Prod.fst ↔ ∃ t ∈ tl, k = firstToken t.emotion) := by
  refine ⟨?_, ?_, ?_⟩
  · have h := countLoop_sum tl []
    simpa [emotion_count] using h
  · exact countLoop_keys_nodup tl [] (by simp)
  · intro k
    have h := countLoop_keys_mem tl [] k
    simpa [emotion_count] using h

/-- Witness for C6 on a one-span timeline: count total 1 and key "Neutral". -/
theorem claim6_histogram_invariants_witness :
    ((emotion_count [⟨0, 3, "hi", "Neutral 🙂"⟩]).map Prod.snd).sum = 1 ∧
    "Neutral" ∈ (emotion_count [⟨0, 3, "hi", "Neutral 🙂"⟩]).map Prod.fst := by
  obtain ⟨h1, h2, h3⟩ := claim6_histogram_invariants [⟨0, 3, "hi", "Neutral 🙂"⟩]
  refine ⟨by simpa using h1, ?_⟩
  rw [h3]
  exact ⟨⟨0, 3, "hi", "Neutral 🙂"⟩, by simp, by decide⟩

/-- Counterexample for C6 as stated: on the timeline for transcript "hello"
the single span stores the label "Neutral 🙂", but that label string is not a
histogram key — the key is its emoji-stripped first token. -/
theorem claim6_counterexample :
    (∃ t ∈ (upload zeroScorer "hello").timeline, t.emotion = "Neutral 🙂") ∧
    "Neutral 🙂" ∉ (upload zeroScorer "hello").chart_labels := by
  have hw : pyWords "hello" = ["hello"] := by decide
  have hemo : detect_emotion zeroScorer "hello" = "Neutral 🙂" := by
    rw [detect_emotion]
    norm_num [zeroScorer]
  have htl : (upload zeroScorer "hello").timeline =
      [{ start := 0, «end» := 3, text := "hello", emotion := "Neutral 🙂" }] := by
    show split_timeline zeroScorer "hello" = _
    rw [split_timeline, hw, splitTimelineGo_cons]
    have hd : (["hello"] : List String).drop 5 = [] := rfl
    have ht : pyJoin " " ((["hello"] : List String).take 5) = "hello" := rfl
    rw [hd, splitTimelineGo_nil, ht, hemo]
  constructor
  · refine ⟨{ start := 0, «end» := 3, text := "hello", emotion := "Neutral 🙂" }, ?_, rfl⟩
    rw [htl]
    simp
  · show "Neutral 🙂" ∉ (emotion_count (split_timeline zeroScorer "hello")).map Prod.fst
    have : (split_timeline zeroScorer "hello") =
        [{ start := 0, «end» := 3, text := "hello", emotion := "Neutral 🙂" }] := htl
    rw [this]
    decide

/-- C7: the pipeline is deterministic — its output is a function of the
transcript and the sentiment model alone, so recomputation yields identical
results and pointwise-equal sentiment models yield identical reports. -/
theorem claim7_deterministic (tb₁ tb₂ : Scorer) (text : String) :
    upload tb₁ text = upload tb₁ text ∧
    ((∀ s, tb₁ s = tb₂ s) → upload tb₁ text = upload tb₂ text) := by
  refine ⟨rfl, fun h => ?_⟩
  have he : tb₁ = tb₂ := funext h
  rw [he]

/-- Witness for C7 at a concrete scorer and transcript. -/
theorem claim7_deterministic_witness :
    upload zeroScorer "good news" = upload zeroScorer "good news" :=
  (claim7_deterministic zeroScorer zeroScorer "good news").2 (fun _ => rfl)

/-- C1 (amended): `detect_emotion` performs no keyword matching at all — for
every sentiment model and every text (in particular texts containing "angry"
or any other trigger word) the result is one of the three polarity-derived
labels "Happy 😊", "Sad 😢", "Neutral 🙂", and is never Angry (nor Angry with
the emoji stripped). -/
theorem claim1_amended (tb : Scorer) (text : String) :
    (detect_emotion tb text = "Happy 😊" ∨ detect_emotion tb text = "Sad 😢" ∨
      detect_emotion tb text = "Neutral 🙂") ∧
    detect_emotion tb text ≠ "Angry" ∧
    firstToken (detect_emotion tb text) ≠ "Angry" := by
  rcases detect_emotion_cases tb text with h | h | h <;> rw [h] <;>
    exact ⟨by tauto, by decide, by decide⟩

/-- Witness for C1 (amended) at a concrete scorer and the spec's own
multi-trigger example text. -/
theorem claim1_amended_witness :
    detect_emotion happyScorer "I am angry but also happy" ≠ "Angry" :=
  (claim1_amended happyScorer "I am angry but also happy").2.1

/-- Counterexample for C1 as stated: on the spec's example text
"I am angry but also happy" the classifier never returns Angry — whichever
branch the polarity selects, the label is the polarity label. -/
theorem claim1_counterexample :
    detect_emotion happyScorer "I am angry but also happy" = "Happy 😊" ∧
    detect_emotion zeroScorer "I am angry but also happy" = "Neutral 🙂" ∧
    detect_emotion sadScorer "I am angry but also happy" = "Sad 😢" ∧
    ("Happy 😊" : String) ≠ "Angry" ∧ ("Neutral 🙂" : String) ≠ "Angry" ∧
    ("Sad 😢" : String) ≠ "Angry" := by
  refine ⟨?_, ?_, ?_, by decide, by decide, by decide⟩
  · rw [detect_emotion]
    norm_num [happyScorer]
  · rw [detect_emotion]
    norm_num [zeroScorer]
  · rw [detect_emotion]
    norm_num [sadScorer]

/-- C2 (amended): with no keyword step in the code, the classifier maps the
polarity through two strict thresholds — `polarity > 0.2 → "Happy 😊"`,
`polarity < -0.2 → "Sad 😢"`, otherwise `"Neutral 🙂"` — with no
VeryHappy/VerySad/Emotional tiers and no use of the subjectivity score. -/
theorem claim2_amended (tb : Scorer) (text : String) :
    ((tb text).polarity > 0.2 → detect_emotion tb text = "Happy 😊") ∧
    ((tb text).polarity < -0.2 → detect_emotion tb text = "Sad 😢") ∧
    (-0.2 ≤ (tb text).polarity → (tb text).polarity ≤ 0.2 →
      detect_emotion tb text = "Neutral 🙂") ∧
    (∀ tb' : Scorer, (tb' text).polarity = (tb text).polarity →
      detect_emotion tb' text = detect_emotion tb text) := by
  refine ⟨fun h1 => ?_, fun h2 => ?_, fun hl hr => ?_, fun tb' h => ?_⟩
  · rw [detect_emotion]
    simp [h1]
  · rw [detect_emotion]
    rw [if_neg (by exact not_lt.mpr (le_of_lt (by linarith))), if_pos h2]
  · rw [detect_emotion]
    rw [if_neg (not_lt.mpr hr), if_neg (not_lt.mpr hl)]
  · rw [detect_emotion, detect_emotion, h]

/-- Witness for C2 (amended): polarity 1 exceeds 0.2, so the label is Happy;
polarity exactly 1/5 = 0.2 falls in the final branch, giving Neutral. -/
theorem claim2_amended_witness :
    detect_emotion happyScorer "nice" = "Happy 😊" ∧
    detect_emotion fifthScorer "nice" = "Neutral 🙂" := by
  constructor
  · exact (claim2_amended happyScorer "nice").1 (by norm_num [happyScorer])
  · exact (claim2_amended fifthScorer "nice").2.2.1 (by norm_num [fifthScorer])
      (by norm_num [fifthScorer])

/-- Counterexample for C2 as stated: a text of polarity 1/2 (in the claim's
VeryHappy band, since 0.5 ≤ 1/2) is labelled "Happy 😊", not VeryHappy; and a
text of polarity exactly 1/5 = 0.2 (in the claim's Happy band, since
0.2 ≤ 1/5 < 0.5) is labelled "Neutral 🙂", because the code's threshold is
strict. -/
theorem claim2_counterexample :
    (halfScorer "what wonderful great news").polarity = 1/2 ∧
    (0.5 : Rat) ≤ 1/2 ∧
    detect_emotion halfScorer "what wonderful great news" = "Happy 😊" ∧
    ("Happy 😊" : String) ≠ "VeryHappy" ∧ firstToken "Happy 😊" ≠ "VeryHappy" ∧
    (fifthScorer "a mildly nice day").polarity = 1/5 ∧
    (0.2 : Rat) ≤ 1/5 ∧ (1/5 : Rat) < 0.5 ∧
    detect_emotion fifthScorer "a mildly nice day" = "Neutral 🙂" ∧
    ("Neutral 🙂" : String) ≠ "Happy" ∧ firstToken "Neutral 🙂" ≠ "Happy" := by
  refine ⟨rfl, by norm_num, ?_, by decide, by decide, rfl, by norm_num, by norm_num,
    ?_, by decide, by decide⟩
  · rw [detect_emotion]
    norm_num [halfScorer]
  · rw [detect_emotion]
    norm_num [fifthScorer]

/-- C3 (amended): the dominant emotion reported by the `upload` handler is the
classifier applied to the whole transcript, not an argmax over the histogram;
it can disagree with every maximal-count histogram key (see the
counterexample). -/
theorem claim3_amended (tb : Scorer) (text : String) :
    (upload tb text).emotion = detect_emotion tb text ∧
    (upload tb text).emotion = detect_emotion tb ((upload tb text).text) :=
  ⟨rfl, rfl⟩

/-- Witness-style instance for C3 (amended) at a concrete scorer and text. -/
theorem claim3_amended_witness :
    (upload zeroScorer "hi there").emotion = detect_emotion zeroScorer "hi there" :=
  (claim3_amended zeroScorer "hi there").1

/-- Counterexample for C3 as stated: under a sentiment model scoring the whole
transcript "a b c d e f" positively and both of its 5-word windows negatively,
the histogram is exactly `{"Sad": 2}` — so every (and the unique) maximal
histogram label is "Sad" — yet the reported dominant emotion is "Happy 😊". -/
theorem claim3_counterexample :
    (upload mixedScorer "a b c d e f").emotion = "Happy 😊" ∧
    emotion_count (upload mixedScorer "a b c d e f").timeline = [("Sad", 2)] ∧
    (upload mixedScorer "a b c d e f").chart_labels = ["Sad"] ∧
    (upload mixedScorer "a b c d e f").chart_data = [2] ∧
    ("Happy 😊" : String) ≠ "Sad" ∧ firstToken "Happy 😊" ≠ "Sad" := by
  have hw : pyWords "a b c d e f" = ["a", "b", "c", "d", "e", "f"] := by decide
  have hfull : detect_emotion mixedScorer "a b c d e f" = "Happy 😊" := by
    rw [detect_emotion]
    norm_num [mixedScorer]
  have hw1 : detect_emotion mixedScorer "a b c d e" = "Sad 😢" := by
    rw [detect_emotion]
    rw [show mixedScorer "a b c d e" = { polarity := -3/10, subjectivity := 0 } from by
      rw [mixedScorer]; simp]
    norm_num
  have hw2 : detect_emotion mixedScorer "f" = "Sad 😢" := by
    rw [detect_emotion]
    rw [show mixedScorer "f" = { polarity := -3/10, subjectivity := 0 } from by
      rw [mixedScorer]; simp]
    norm_num
  have htl : split_timeline mixedScorer "a b c d e f" =
      [{ start := 0, «end» := 3, text := "a b c d e", emotion := "Sad 😢" },
       { start := 3, «end» := 6, text := "f", emotion := "Sad 😢" }] := by
    rw [split_timeline, hw, splitTimelineGo_cons]
    have h1 : pyJoin " " ((["a", "b", "c", "d", "e", "f"] : List String).take 5) =
        "a b c d e" := by decide
    have h2 : (["a", "b", "c", "d", "e", "f"] : List String).drop 5 = ["f"] := rfl
    rw [h1, h2, hw1, splitTimelineGo_cons]
    have h3 : pyJoin " " ((["f"] : List String).take 5) = "f" := rfl
    have h4 : (["f"] : List String).drop 5 = [] := rfl
    rw [h3, h4, hw2, splitTimelineGo_nil]
  have hcnt : emotion_count (upload mixedScorer "a b c d e f").timeline = [("Sad", 2)] := by
    show emotion_count (split_timeline mixedScorer "a b c d e f") = _
    rw [htl]
    decide
  refine ⟨hfull, hcnt, ?_, ?_, by decide, by decide⟩
  · show (emotion_count (split_timeline mixedScorer "a b c d e f")).map Prod.fst = _
    rw [htl]
    decide
  · show (emotion_count (split_timeline mixedScorer "a b c d e f")).map Prod.snd = _
    rw [htl]
    decide

/-- C4 (amended): for the empty transcript the pipeline produces an empty
timeline and an empty histogram, but the dominant emotion is reported as the
ordinary label "Neutral 🙂" (the classifier applied to "" with polarity 0),
not as a distinct NoData state. -/
theorem claim4_amended (tb : Scorer) (h : (tb "").polarity = 0) :
    (upload tb "").timeline = [] ∧
    (upload tb "").chart_labels = [] ∧
    (upload tb "").chart_data = [] ∧
    (upload tb "").emotion = "Neutral 🙂" := by
  have hw : pyWords "" = [] := rfl
  have htl : (upload tb "").timeline = [] := by
    show split_timeline tb "" = []
    rw [split_timeline, hw, splitTimelineGo_nil]
  have hcnt : emotion_count (split_timeline tb "") = [] := by
    rw [split_timeline, hw, splitTimelineGo_nil]
    rfl
  refine ⟨htl, ?_, ?_, ?_⟩
  · show (emotion_count (split_timeline tb "")).map Prod.fst = []
    rw [hcnt]
    rfl
  · show (emotion_count (split_timeline tb "")).map Prod.snd = []
    rw [hcnt]
    rfl
  · show detect_emotion tb "" = "Neutral 🙂"
    rw [detect_emotion, h]
    norm_num

/-- Witness for C4 (amended) at a sentiment model that scores "" as 0. -/
theorem claim4_amended_witness :
    (upload zeroScorer "").timeline = [] ∧
    (upload zeroScorer "").chart_labels = [] ∧
    (upload zeroScorer "").chart_data = [] ∧
    (upload zeroScorer "").emotion = "Neutral 🙂" :=
  claim4_amended zeroScorer rfl

/-- Counterexample for C4 as stated: on the empty transcript the pipeline does
produce an empty timeline and histogram, but reports the dominant emotion as
the ordinary label "Neutral 🙂", not a NoData sentinel or error. -/
theorem claim4_counterexample :
    (upload zeroScorer "").timeline = [] ∧
    (upload zeroScorer "").chart_labels = [] ∧
    (upload zeroScorer "").emotion = "Neutral 🙂" ∧
    (upload zeroScorer "").emotion ≠ "NoData" := by
  have hw : pyWords "" = [] := rfl
  have htl : (upload zeroScorer "").timeline = [] := by
    show split_timeline zeroScorer "" = []
    rw [split_timeline, hw, splitTimelineGo_nil]
  have hemo : (upload zeroScorer "").emotion = "Neutral 🙂" := by
    show detect_emotion zeroScorer "" = "Neutral 🙂"
    rw [detect_emotion]
    norm_num [zeroScorer]
  refine ⟨htl, ?_, hemo, ?_⟩
  · show (emotion_count (split_timeline zeroScorer "")).map Prod.fst = []
    rw [split_timeline, hw, splitTimelineGo_nil]
    rfl
  · rw [hemo]
    decide

/-- C8: when recognition fails, `recognize_speech` returns the sentinel string
"Could not recognize speech" rather than raising, and the pipeline processes
that placeholder as ordinary text, producing a full report: one 4-word span
holding the placeholder, and a histogram totalling 1. -/
theorem claim8_sentinel_pipeline (tb : Scorer) :
    recognize_speech none = "Could not recognize speech" ∧
    (∀ s, recognize_speech (some s) = s) ∧
    upload tb (recognize_speech none) = upload tb "Could not recognize speech" ∧
    (upload tb (recognize_speech none)).timeline.map Span.text =
      ["Could not recognize speech"] ∧
    (upload tb (recognize_speech none)).chart_data.sum = 1 := by
  have hw : pyWords "Could not recognize speech" =
      ["Could", "not", "recognize", "speech"] := by decide
  have htl : split_timeline tb "Could not recognize speech" =
      [{ start := 0, «end» := 3, text := "Could not recognize speech",
         emotion := detect_emotion tb "Could not recognize speech" }] := by
    rw [split_timeline, hw, splitTimelineGo_cons]
    have h1 : pyJoin " " ((["Could", "not", "recognize", "speech"] : List String).take 5) =
        "Could not recognize speech" := by decide
    have h2 : (["Could", "not", "recognize", "speech"] : List String).drop 5 = [] := rfl
    rw [h1, h2, splitTimelineGo_nil]
  refine ⟨rfl, fun s => rfl, rfl, ?_, ?_⟩
  · show (split_timeline tb "Could not recognize speech").map Span.text = _
    rw [htl]
    rfl
  · show ((emotion_count (split_timeline tb "Could not recognize speech")).map Prod.snd).sum = 1
    rw [htl]
    simp [emotion_count, bumpCount]

/-- C9: every value the classifier returns is one of the three emoji-bearing
strings "Happy 😊", "Sad 😢", "Neutral 🙂" — so none of the spec's labels
Angry, Fear, VeryHappy, VerySad, Emotional, NoData is ever produced — the
emoji-stripped first tokens of those labels differ from the stored label
strings, and the histogram keys on first tokens of span labels. -/
theorem claim9_label_invariants :
    (∀ (tb : Scorer) (text : String),
      detect_emotion tb text = "Happy 😊" ∨ detect_emotion tb text = "Sad 😢" ∨
        detect_emotion tb text = "Neutral 🙂") ∧
    (∀ (tb : Scorer) (text : String),
      detect_emotion tb text ∉
        (["Angry", "Fear", "VeryHappy", "VerySad", "Emotional", "NoData"] : List String)) ∧
    firstToken "Happy 😊" = "Happy" ∧
    firstToken "Sad 😢" = "Sad" ∧
    firstToken "Neutral 🙂" = "Neutral" ∧
    ("Happy" : String) ≠ "Happy 😊" ∧
    ("Sad" : String) ≠ "Sad 😢" ∧
    ("Neutral" : String) ≠ "Neutral 🙂" ∧
    (∀ (tl : List Span) (k : String), k ∈ (emotion_count tl).map Prod.fst →
      ∃ t ∈ tl, k = firstToken t.emotion) ∧
    (∀ (tl : List Span) (t : Span), t ∈ tl →
      firstToken t.emotion ∈ (emotion_count tl).map Prod.fst) := by
  refine ⟨detect_emotion_cases, ?_, by decide, by decide, by decide, by decide, by decide,
    by decide, ?_, ?_⟩
  · intro tb text
    rcases detect_emotion_cases tb text with h | h | h <;> rw [h] <;> decide
  · intro tl k hk
    have h := countLoop_keys_mem tl [] k
    rw [emotion_count] at hk
    rcases h.mp hk with h0 | h1
    · simp at h0
    · exact h1
  · intro tl t ht
    have h := countLoop_keys_mem tl [] (firstToken t.emotion)
    rw [emotion_count]
    exact h.mpr (Or.inr ⟨t, ht, rfl⟩)

/-- Witness for C9 on a one-span timeline: the span's first token is a key. -/
theorem claim9_label_invariants_witness :
    firstToken (Span.mk 0 3 "hi" "Neutral 🙂").emotion ∈
      (emotion_count [Span.mk 0 3 "hi" "Neutral 🙂"]).map Prod.fst := by
  obtain ⟨h1, h2, h3, h4, h5, h6, h7, h8, h9, h10⟩ := claim9_label_invariants
  exact h10 [Span.mk 0 3 "hi" "Neutral 🙂"] (Span.mk 0 3 "hi" "Neutral 🙂") (by simp)
